import Mathlib

/-
  Verification of the product-inventory backend.

  The definitions below are a shallow embedding of the JavaScript source:
  * `src/models/Product.js`      → `Product`, `validProduct` (mongoose full-document
                                    validation run by `save()`),
  * `src/controllers/product.js` → `createProduct`, `getProducts`, `getProduct`,
                                    `updateProduct`, `deleteProduct`, `updateQuantity`,
                                    `getInventoryStats`,
  * `src/middleware/security.js` → `productCreateValidation`, `productUpdateValidation`,
                                    `quantityUpdateValidation` (express-validator chains),
  * `src/models/User.js` and `src/controllers/auth.js` → `User`, `register`, `login`,
  * `src/middleware/auth.js`     → `auth` (JWT authentication middleware).

  The MongoDB collection is modelled as an association list in insertion
  ("natural") order; `findById`/`findOne` return the first match in that order,
  and `findByIdAndUpdate` rewrites the first entry carrying the id, matching the
  driver's behaviour on a collection whose `_id`s are unique.  JavaScript
  numbers are modelled as rationals (no claim in scope depends on binary
  floating-point rounding).  `bcrypt.compare` and `jwt.verify` are modelled as
  explicit function parameters, since their behaviour is external to this
  repository.
-/

namespace Inventory

abbrev UserId := Nat
abbrev ProductId := Nat

/-- Leading- and trailing-whitespace removal on the character list: the
semantics of JavaScript `trim()` and of the mongoose/express-validator `trim`
setters (stated on `List Char` so that it evaluates by structural recursion). -/
def chTrim (l : List Char) : List Char :=
  ((l.dropWhile Char.isWhitespace).reverse.dropWhile Char.isWhitespace).reverse

def strTrim (s : String) : String :=
  String.mk (chTrim s.toList)

/-- `toUpperCase()` as applied by the schema's `uppercase: true` setter (the
inputs in scope are ASCII). -/
def strToUpper (s : String) : String :=
  String.mk (s.toList.map Char.toUpper)

def strToLower (s : String) : String :=
  String.mk (s.toList.map Char.toLower)

/-- A product document as defined by `productSchema` in `src/models/Product.js`
(the optional `maxQuantity`, `supplier` and `location` fields play no role in
any claim and carry no validation beyond nonnegativity, so they are omitted;
`createdAt` is the timestamp mongoose adds via `timestamps: true`). -/
structure Product where
  name : String
  description : String
  sku : String
  category : String
  price : ℚ
  cost : ℚ
  quantity : ℚ
  minQuantity : ℚ
  unit : String
  isActive : Bool
  createdBy : UserId
  createdAt : Nat
deriving DecidableEq, Repr

/-- The products collection, in insertion order. -/
abbrev DB := List (ProductId × Product)

/-- `Product.findById`: the document with the given id (ids are unique in
MongoDB; on our list model this is the first entry with the id). -/
def findById (db : DB) (pid : ProductId) : Option Product :=
  (db.find? (fun e => e.1 == pid)).map (fun e => e.2)

/-- `Product.findByIdAndUpdate` / saving a fetched document: rewrite the
document carrying the id (the first such entry), leave the rest unchanged. -/
def updateById (db : DB) (pid : ProductId) (f : Product → Product) : DB :=
  match db with
  | [] => []
  | (i, p) :: rest =>
    if i == pid then (i, f p) :: rest else (i, p) :: updateById rest pid f

/-- Full-document validation run by mongoose on `save()`, from `productSchema`:
every `required` string must be nonempty after trimming, `name`/`description`
have max lengths, and the numeric fields have `min: 0` validators. -/
def validProduct (p : Product) : Bool :=
  !(p.name == "") && decide (p.name.length ≤ 100) &&
  !(p.description == "") && decide (p.description.length ≤ 500) &&
  !(p.sku == "") && !(p.category == "") && !(p.unit == "") &&
  decide (0 ≤ p.price) && decide (0 ≤ p.cost) &&
  decide (0 ≤ p.quantity) && decide (0 ≤ p.minQuantity)

/-- Request body of POST `/api/products` (fields absent from the JSON body are
`none`). -/
structure CreateBody where
  name : Option String := none
  description : Option String := none
  sku : Option String := none
  category : Option String := none
  price : Option ℚ := none
  cost : Option ℚ := none
  quantity : Option ℚ := none
  minQuantity : Option ℚ := none
  unit : Option String := none
deriving DecidableEq, Repr

/-- `commonValidations.productCreate` (express-validator, `src/middleware/security.js`):
`name` trimmed then length 2–100, `price` a float ≥ 0, `quantity` an integer ≥ 0;
a missing field fails its validator.  (`escape()` additionally HTML-escapes
`& < > " '` in `name`; no input considered here contains such a character.) -/
def productCreateValidation (b : CreateBody) : Bool :=
  (match b.name with
   | none => false
   | some s => decide (2 ≤ (strTrim s).length) && decide ((strTrim s).length ≤ 100)) &&
  (match b.price with
   | none => false
   | some q => decide (0 ≤ q)) &&
  (match b.quantity with
   | none => false
   | some q => decide (0 ≤ q) && (q.den == 1))

/-- The validation-error messages mongoose reports when saving a new product
built from `b` (required/maxlength/min validators of `productSchema`).
Empty list ⟺ the save succeeds. -/
def mongooseNewErrors (b : CreateBody) : List String :=
  (match b.name with
   | none => ["Product name is required"]
   | some s =>
     if strTrim s == "" then ["Product name is required"]
     else if decide (100 < (strTrim s).length) then ["Product name cannot exceed 100 characters"]
     else []) ++
  (match b.description with
   | none => ["Product description is required"]
   | some s =>
     if strTrim s == "" then ["Product description is required"]
     else if decide (500 < (strTrim s).length) then ["Description cannot exceed 500 characters"]
     else []) ++
  (match b.sku with
   | none => ["SKU is required"]
   | some s => if strTrim s == "" then ["SKU is required"] else []) ++
  (match b.category with
   | none => ["Category is required"]
   | some s => if strTrim s == "" then ["Category is required"] else []) ++
  (match b.price with
   | none => ["Price is required"]
   | some q => if decide (q < 0) then ["Price cannot be negative"] else []) ++
  (match b.cost with
   | none => ["Cost is required"]
   | some q => if decide (q < 0) then ["Cost cannot be negative"] else []) ++
  (match b.quantity with
   | none => []
   | some q => if decide (q < 0) then ["Quantity cannot be negative"] else []) ++
  (match b.minQuantity with
   | none => []
   | some q => if decide (q < 0) then ["Minimum quantity cannot be negative"] else []) ++
  (match b.unit with
   | none => ["Unit is required"]
   | some s => if strTrim s == "" then ["Unit is required"] else [])

/-- The document `new Product({...req.body, createdBy})` holds after the schema
setters ran: strings trimmed, `sku` uppercased, `quantity`/`minQuantity`
defaulting to 0, `isActive` defaulting to `true`. -/
def buildProduct (b : CreateBody) (uid : UserId) (now : Nat) : Product :=
  { name := strTrim (b.name.getD "")
    description := strTrim (b.description.getD "")
    sku := strToUpper (strTrim (b.sku.getD ""))
    category := strTrim (b.category.getD "")
    price := b.price.getD 0
    cost := b.cost.getD 0
    quantity := b.quantity.getD 0
    minQuantity := b.minQuantity.getD 0
    unit := strTrim (b.unit.getD "")
    isActive := true
    createdBy := uid
    createdAt := now }

/-- Outcome of POST `/api/products`. -/
inductive CreateResult
  | badRequest (msgs : List String)
  | created (db : DB) (p : Product)
deriving DecidableEq, Repr

/-- POST `/api/products`: the `commonValidations.productCreate` chain followed
by `createProduct` in `src/controllers/product.js` (`new Product` + `save()`;
`pid` stands for the `_id` MongoDB generates, `now` for the creation time). -/
def createProduct (db : DB) (uid : UserId) (pid : ProductId) (now : Nat)
    (b : CreateBody) : CreateResult :=
  if !productCreateValidation b then
    .badRequest ["Validation failed"]
  else if !(mongooseNewErrors b).isEmpty then
    .badRequest (mongooseNewErrors b)
  else
    .created (db ++ [(pid, buildProduct b uid now)]) (buildProduct b uid now)

/-- Query parameters of GET `/api/products`, with the controller's defaults. -/
structure ListQuery where
  page : Nat := 1
  limit : Nat := 10
  category : Option String := none
  search : Option String := none
  minPrice : Option ℚ := none
  maxPrice : Option ℚ := none
  stockStatus : Option String := none
  sortDesc : Bool := true
deriving Repr

/-- Case-insensitive substring test: the unanchored `$regex` with option `i`
used by the category and search filters (for the escaped-regex-free patterns
the repository's spec and tests use). -/
def charsContain (pat : List Char) : List Char → Bool
  | [] => pat.isEmpty
  | c :: rest => pat.isPrefixOf (c :: rest) || charsContain pat rest

def containsCI (pat s : String) : Bool :=
  charsContain ((strToLower pat).toList) ((strToLower s).toList)

/-- The MongoDB filter object built by `getProducts`: always
`isActive: true, createdBy: req.user._id`, plus the optional query filters. -/
def matchesQuery (uid : UserId) (q : ListQuery) (p : Product) : Bool :=
  p.isActive && (p.createdBy == uid) &&
  (match q.category with
   | none => true
   | some c => containsCI c p.category) &&
  (match q.search with
   | none => true
   | some s => containsCI s p.name || containsCI s p.description || containsCI s p.sku) &&
  (match q.minPrice with
   | none => true
   | some m => decide (m ≤ p.price)) &&
  (match q.maxPrice with
   | none => true
   | some m => decide (p.price ≤ m)) &&
  (match q.stockStatus with
   | none => true
   | some s =>
     if s == "in-stock" then decide (0 < p.quantity)
     else if s == "out-of-stock" then p.quantity == (0 : ℚ)
     else if s == "low-stock" then decide (p.quantity ≤ p.minQuantity)
     else true)

/-- Comparison used by `.sort({createdAt: ±1})` (the controller's default
`sortBy` field). -/
def sortLe (desc : Bool) (a b : Product) : Bool :=
  if desc then b.createdAt ≤ a.createdAt else a.createdAt ≤ b.createdAt

/-- Ordered insertion, the sorting step (a stable structural sort standing in
for the store's `.sort()`; the spec fixes no tie order). -/
def insertSorted (le : Product → Product → Bool) (a : Product) :
    List Product → List Product
  | [] => [a]
  | b :: l => if le a b then a :: b :: l else b :: insertSorted le a l

def sortProducts (le : Product → Product → Bool) : List Product → List Product
  | [] => []
  | a :: l => insertSorted le a (sortProducts le l)

/-- GET `/api/products` (`getProducts` in `src/controllers/product.js`):
filter to the caller's active products plus query filters, sort by creation
time, then paginate with `skip ((page-1)*limit)` and `limit`. -/
def getProducts (db : DB) (uid : UserId) (q : ListQuery) : List Product :=
  let matched := (db.filter (fun e => matchesQuery uid q e.2)).map (fun e => e.2)
  let sorted := sortProducts (sortLe q.sortDesc) matched
  (sorted.drop ((q.page - 1) * q.limit)).take q.limit

/-- Outcome of GET `/api/products/:id`. -/
inductive GetResult
  | notFound (msg : String)
  | forbidden (msg : String)
  | ok (p : Product)
deriving DecidableEq, Repr

def GetResult.status : GetResult → Nat
  | .notFound _ => 404
  | .forbidden _ => 403
  | .ok _ => 200

/-- GET `/api/products/:id` (`getProduct`): 404 when the id matches no
document, then 403 when the caller is not the owner, else the product. -/
def getProduct (db : DB) (uid : UserId) (pid : ProductId) : GetResult :=
  match findById db pid with
  | none => .notFound "No product found with the provided ID"
  | some p =>
    if !(p.createdBy == uid) then .forbidden "You can only access your own products"
    else .ok p

/-- Request body of PUT `/api/products/:id`: any subset of the schema fields,
passed verbatim to `findByIdAndUpdate` (nothing strips unknown-but-schema
fields such as `isActive`). -/
structure UpdateBody where
  name : Option String := none
  description : Option String := none
  sku : Option String := none
  category : Option String := none
  price : Option ℚ := none
  cost : Option ℚ := none
  quantity : Option ℚ := none
  minQuantity : Option ℚ := none
  unit : Option String := none
  isActive : Option Bool := none
deriving DecidableEq, Repr

/-- `commonValidations.productUpdate`: optional checks on `name`, `price`,
`quantity` only; every other body field (including `isActive`) passes through
unexamined. -/
def productUpdateValidation (b : UpdateBody) : Bool :=
  (match b.name with
   | none => true
   | some s => decide (2 ≤ (strTrim s).length) && decide ((strTrim s).length ≤ 100)) &&
  (match b.price with
   | none => true
   | some q => decide (0 ≤ q)) &&
  (match b.quantity with
   | none => true
   | some q => decide (0 ≤ q) && (q.den == 1))

/-- Apply an update body to a stored document, as `findByIdAndUpdate` does
(schema setters trim strings and uppercase `sku`). -/
def applyUpdate (b : UpdateBody) (p : Product) : Product :=
  { p with
    name := (b.name.map strTrim).getD p.name
    description := (b.description.map strTrim).getD p.description
    sku := (b.sku.map (fun s => strToUpper (strTrim s))).getD p.sku
    category := (b.category.map strTrim).getD p.category
    price := b.price.getD p.price
    cost := b.cost.getD p.cost
    quantity := b.quantity.getD p.quantity
    minQuantity := b.minQuantity.getD p.minQuantity
    unit := (b.unit.map strTrim).getD p.unit
    isActive := b.isActive.getD p.isActive }

/-- `runValidators: true` on `findByIdAndUpdate`: mongoose validates the
updated paths only. -/
def validUpdatePaths (b : UpdateBody) : Bool :=
  (match b.name with
   | none => true
   | some s => !(strTrim s == "") && decide ((strTrim s).length ≤ 100)) &&
  (match b.description with
   | none => true
   | some s => !(strTrim s == "") && decide ((strTrim s).length ≤ 500)) &&
  (match b.sku with
   | none => true
   | some s => !(strTrim s == "")) &&
  (match b.category with
   | none => true
   | some s => !(strTrim s == "")) &&
  (match b.price with
   | none => true
   | some q => decide (0 ≤ q)) &&
  (match b.cost with
   | none => true
   | some q => decide (0 ≤ q)) &&
  (match b.quantity with
   | none => true
   | some q => decide (0 ≤ q)) &&
  (match b.minQuantity with
   | none => true
   | some q => decide (0 ≤ q)) &&
  (match b.unit with
   | none => true
   | some s => !(strTrim s == ""))

/-- Outcome of PUT `/api/products/:id` (`serverError` is the 500 the
controller's catch block produces when the mongoose update validation throws;
`badRequest` is the 400 of the express-validator chain in front of it). -/
inductive UpdateResult
  | badRequest (msg : String)
  | notFound (msg : String)
  | forbidden (msg : String)
  | serverError
  | ok (db : DB) (p : Product)
deriving DecidableEq, Repr

def UpdateResult.status : UpdateResult → Nat
  | .badRequest _ => 400
  | .notFound _ => 404
  | .forbidden _ => 403
  | .serverError => 500
  | .ok _ _ => 200

/-- `updateProduct` in `src/controllers/product.js`: existence check, then
ownership check, then `findByIdAndUpdate(id, req.body, {new, runValidators})`. -/
def updateProduct (db : DB) (uid : UserId) (pid : ProductId) (b : UpdateBody) :
    UpdateResult :=
  match findById db pid with
  | none => .notFound "No product found with the provided ID"
  | some p =>
    if !(p.createdBy == uid) then .forbidden "You can only update your own products"
    else if validUpdatePaths b then .ok (updateById db pid (applyUpdate b)) (applyUpdate b p)
    else .serverError

/-- PUT `/api/products/:id` as routed: `commonValidations.productUpdate`
followed by the controller. -/
def updateProductRoute (db : DB) (uid : UserId) (pid : ProductId) (b : UpdateBody) :
    UpdateResult :=
  if !productUpdateValidation b then .badRequest "Validation failed"
  else updateProduct db uid pid b

/-- Outcome of DELETE `/api/products/:id`. -/
inductive DeleteResult
  | notFound (msg : String)
  | forbidden (msg : String)
  | ok (db : DB) (p : Product)
deriving DecidableEq, Repr

def DeleteResult.status : DeleteResult → Nat
  | .notFound _ => 404
  | .forbidden _ => 403
  | .ok _ _ => 200

/-- `deleteProduct` in `src/controllers/product.js`: existence check, then
ownership check, then `findByIdAndUpdate(id, {isActive: false}, {new: true})`
(a soft delete — the record is kept). -/
def deleteProduct (db : DB) (uid : UserId) (pid : ProductId) : DeleteResult :=
  match findById db pid with
  | none => .notFound "No product found with the provided ID"
  | some p =>
    if !(p.createdBy == uid) then .forbidden "You can only delete your own products"
    else .ok (updateById db pid (fun q => { q with isActive := false }))
      { p with isActive := false }

/-- The three quantity operations of `updateQuantity` (`'set'` is also the
`default` branch of the switch). -/
def newQuantityFor (operation : String) (current amount : ℚ) : ℚ :=
  if operation == "add" then current + amount
  else if operation == "subtract" then max 0 (current - amount)
  else amount

/-- Outcome of PATCH `/api/products/:id/quantity` (`serverError` is the 500
the catch block produces when `save()` rejects the mutated document). -/
inductive QuantityResult
  | badRequest (msg : String)
  | notFound (msg : String)
  | forbidden (msg : String)
  | serverError
  | ok (db : DB) (p : Product)
deriving DecidableEq, Repr

def QuantityResult.status : QuantityResult → Nat
  | .badRequest _ => 400
  | .notFound _ => 404
  | .forbidden _ => 403
  | .serverError => 500
  | .ok _ _ => 200

/-- `updateQuantity` in `src/controllers/product.js`: reject a negative
`quantity` (the body value is a number here, so the `typeof` half of the guard
is vacuous), then existence check, then ownership check, then compute the new
quantity by `operation` and `save()` the mutated document. -/
def updateQuantity (db : DB) (uid : UserId) (pid : ProductId) (quantity : ℚ)
    (operation : String) : QuantityResult :=
  if decide (quantity < 0) then .badRequest "Quantity must be a non-negative number"
  else
    match findById db pid with
    | none => .notFound "No product found with the provided ID"
    | some p =>
      if !(p.createdBy == uid) then
        .forbidden "You can only update quantity for your own products"
      else
        if validProduct { p with quantity := newQuantityFor operation p.quantity quantity } then
          .ok (updateById db pid
                (fun _ => { p with quantity := newQuantityFor operation p.quantity quantity }))
              { p with quantity := newQuantityFor operation p.quantity quantity }
        else .serverError

/-- The aggregate of GET `/api/products/stats`. -/
structure Stats where
  totalProducts : Nat
  totalValue : ℚ
  totalCost : ℚ
  lowStockProducts : Nat
  outOfStockProducts : Nat
deriving DecidableEq, Repr

/-- `getInventoryStats` in `src/controllers/product.js`: aggregate over the
caller's active products (`$match {isActive: true, createdBy}`), defaulting to
the all-zero object when the pipeline matches nothing. -/
def getInventoryStats (db : DB) (uid : UserId) : Stats :=
  let matched := (db.filter (fun e => e.2.isActive && (e.2.createdBy == uid))).map (fun e => e.2)
  if matched.isEmpty then
    { totalProducts := 0, totalValue := 0, totalCost := 0
      lowStockProducts := 0, outOfStockProducts := 0 }
  else
    { totalProducts := matched.length
      totalValue := (matched.map (fun p => p.price * p.quantity)).sum
      totalCost := (matched.map (fun p => p.cost * p.quantity)).sum
      lowStockProducts := (matched.filter (fun p => decide (p.quantity ≤ p.minQuantity))).length
      outOfStockProducts := (matched.filter (fun p => p.quantity == (0 : ℚ))).length }

/-- A user document as defined by `userSchema` in `src/models/User.js`
(`password` holds the bcrypt hash; `createdAt`/`updatedAt` play no role in any
claim and are omitted). -/
structure User where
  id : UserId
  username : String
  email : String
  password : String
  role : String
  isActive : Bool
deriving DecidableEq, Repr

/-- The users collection, in insertion order. -/
abbrev UserDB := List User

/-- A user as attached to `req.user` after `.select('-password')` /
`toJSON()`: the same record with the password field excluded. -/
structure PublicUser where
  id : UserId
  username : String
  email : String
  role : String
  isActive : Bool
deriving DecidableEq, Repr

def toPublic (u : User) : PublicUser :=
  { id := u.id, username := u.username, email := u.email
    role := u.role, isActive := u.isActive }

/-- Outcome of POST `/api/auth/register` (`validationError` is the mongoose
rejection when the supplied role is outside the `['user','admin']` enum). -/
inductive RegisterResult
  | conflict (msg : String)
  | validationError (msg : String)
  | created (u : User)
deriving DecidableEq, Repr

/-- `register` in `src/controllers/auth.js`: `findOne({$or:[{email},{username}]})`
(first match in collection order); on a hit, the message is chosen by whether
that one found user's email equals the requested email; otherwise build the
user with `role: role || 'user'` (so an empty string also falls back) and
`save()`, whose enum validator admits only `user` and `admin`.  `hash` stands
for the bcrypt pre-save hook, `newId` for the generated `_id`; `username`,
`email` and `password` are taken as having passed the
`commonValidations.userRegister` chain, which never examines `role`. -/
def register (users : UserDB) (newId : UserId) (hash : String → String)
    (username email password : String) (role : Option String) : RegisterResult :=
  match users.find? (fun u => (u.email == email) || (u.username == username)) with
  | some existingUser =>
    .conflict (if existingUser.email == email then "Email is already registered"
               else "Username is already taken")
  | none =>
    let r := match role with
      | none => "user"
      | some s => if s == "" then "user" else s
    if (r == "user") || (r == "admin") then
      .created { id := newId, username := username, email := email
                 password := hash password, role := r, isActive := true }
    else
      .validationError "`role` is not a valid enum value for path `role`."

/-- Outcome of POST `/api/auth/login`. -/
inductive LoginResult
  | authError (msg : String)
  | success (userId : UserId)
deriving DecidableEq, Repr

/-- `login` in `src/controllers/auth.js`: `findOne({email})`, then the
`isActive` check, then `comparePassword` (bcrypt, modelled by the `verify`
parameter applied to the stored hash and the candidate password). -/
def login (users : UserDB) (verify : String → String → Bool)
    (email password : String) : LoginResult :=
  match users.find? (fun u => u.email == email) with
  | none => .authError "Email or password is incorrect"
  | some user =>
    if !user.isActive then
      .authError "Your account has been disabled. Please contact administrator."
    else if !verify user.password password then
      .authError "Email or password is incorrect"
    else
      .success user.id

/-- Result of `jwt.verify(token, secret)`: a decoded payload carrying
`userId`, or the `JsonWebTokenError` / `TokenExpiredError` throw. -/
inductive VerifyOutcome
  | ok (userId : UserId)
  | invalidSignature
  | expired
deriving DecidableEq, Repr

/-- Remove the first occurrence of `pat` from a character list: the behaviour
of JavaScript `String.prototype.replace(pat, '')` for a plain nonempty
pattern. -/
def removeFirstOcc (pat : List Char) : List Char → List Char
  | [] => []
  | c :: rest =>
    if !pat.isEmpty && pat.isPrefixOf (c :: rest) then (c :: rest).drop pat.length
    else c :: removeFirstOcc pat rest

/-- `req.header('Authorization')?.replace('Bearer ', '')`. -/
def extractToken (header : Option String) : Option String :=
  header.map (fun h => String.mk (removeFirstOcc "Bearer ".toList h.toList))

/-- Outcome of the `auth` middleware. -/
inductive AuthOutcome
  | noToken
  | invalidToken
  | expiredToken
  | userNotFoundOrInactive
  | authenticated (u : PublicUser)
deriving DecidableEq, Repr

def AuthOutcome.status : AuthOutcome → Nat
  | .authenticated _ => 200
  | _ => 401

/-- The `error` string of the JSON body each failure branch sends. -/
def AuthOutcome.message : AuthOutcome → String
  | .noToken => "Access denied. No token provided."
  | .invalidToken => "Invalid token."
  | .expiredToken => "Token expired."
  | .userNotFoundOrInactive => "Invalid token. User not found or inactive."
  | .authenticated _ => ""

/-- `auth` in `src/middleware/auth.js`: extract the bearer token (a missing
header or an empty remainder is falsy → 401 "no token"), `jwt.verify` it
(modelled by the `verify` parameter), look the decoded `userId` up with
`findById(..).select('-password')`, and reject an absent or inactive user;
on success the password-stripped user is attached to the request. -/
def auth (verify : String → VerifyOutcome) (users : UserDB)
    (header : Option String) : AuthOutcome :=
  match extractToken header with
  | none => .noToken
  | some token =>
    if token == "" then .noToken
    else
      match verify token with
      | .invalidSignature => .invalidToken
      | .expired => .expiredToken
      | .ok userId =>
        match users.find? (fun u => u.id == userId) with
        | none => .userNotFoundOrInactive
        | some user =>
          if !user.isActive then .userNotFoundOrInactive
          else .authenticated (toPublic user)

/-- One authenticated request against the product surface, as routed in
`src/routes/product.js` (`now` and the fresh id of a create stand for the
values MongoDB generates). -/
inductive Op
  | createOp (uid : UserId) (pid : ProductId) (now : Nat) (b : CreateBody)
  | listOp (uid : UserId) (q : ListQuery)
  | getOp (uid : UserId) (pid : ProductId)
  | updateOp (uid : UserId) (pid : ProductId) (b : UpdateBody)
  | deleteOp (uid : UserId) (pid : ProductId)
  | quantityOp (uid : UserId) (pid : ProductId) (amount : ℚ) (operation : String)

/-- The products collection after serving one request (failed requests leave
it unchanged; reads never change it). -/
def stepDb : Op → DB → DB
  | .createOp uid pid now b, db =>
    match createProduct db uid pid now b with
    | .created db2 _ => db2
    | _ => db
  | .listOp _ _, db => db
  | .getOp _ _, db => db
  | .updateOp uid pid b, db =>
    match updateProductRoute db uid pid b with
    | .ok db2 _ => db2
    | _ => db
  | .deleteOp uid pid, db =>
    match deleteProduct db uid pid with
    | .ok db2 _ => db2
    | _ => db
  | .quantityOp uid pid amount operation, db =>
    match updateQuantity db uid pid amount operation with
    | .ok db2 _ => db2
    | _ => db

/-- The collection after serving a sequence of requests. -/
def runOps (ops : List Op) (db : DB) : DB :=
  ops.foldl (fun d op => stepDb op d) db

/-! ### Helper lemmas -/

lemma findById_cons (i : ProductId) (q : Product) (rest : DB) (pid : ProductId) :
    findById ((i, q) :: rest) pid = if i = pid then some q else findById rest pid := by
  by_cases hi : i = pid
  · simp [findById, List.find?, hi]
  · have hb : (i == pid) = false := beq_eq_false_iff_ne.mpr hi
    simp [findById, List.find?, hi, hb]

lemma findById_updateById {db : DB} {pid : ProductId} {p : Product}
    (f : Product → Product) (h : findById db pid = some p) :
    findById (updateById db pid f) pid = some (f p) := by
  induction db with
  | nil => simp [findById] at h
  | cons e rest ih =>
    obtain ⟨i, q⟩ := e
    rw [findById_cons] at h
    by_cases hi : i = pid
    · rw [if_pos hi] at h
      obtain rfl : q = p := Option.some.inj h
      simp [updateById, hi, findById_cons]
    · rw [if_neg hi] at h
      simp [updateById, hi, findById_cons, ih h]

lemma getProduct_404 (db : DB) (uid : UserId) (pid : ProductId) :
    (getProduct db uid pid).status = 404 ↔ findById db pid = none := by
  unfold getProduct
  cases hf : findById db pid with
  | none => simp [GetResult.status]
  | some p =>
    by_cases hcb : p.createdBy = uid <;> simp [hcb, GetResult.status]

lemma getProduct_403 (db : DB) (uid : UserId) (pid : ProductId) :
    (getProduct db uid pid).status = 403 ↔
      ∃ p, findById db pid = some p ∧ p.createdBy ≠ uid := by
  unfold getProduct
  cases hf : findById db pid with
  | none => simp [GetResult.status]
  | some p =>
    by_cases hcb : p.createdBy = uid <;> simp [hcb, GetResult.status]

lemma updateProduct_404 (db : DB) (uid : UserId) (pid : ProductId) (b : UpdateBody) :
    (updateProduct db uid pid b).status = 404 ↔ findById db pid = none := by
  unfold updateProduct
  cases hf : findById db pid with
  | none => simp [UpdateResult.status]
  | some p =>
    by_cases hcb : p.createdBy = uid <;>
      by_cases hv : validUpdatePaths b <;>
        simp [hcb, hv, UpdateResult.status]

lemma updateProduct_403 (db : DB) (uid : UserId) (pid : ProductId) (b : UpdateBody) :
    (updateProduct db uid pid b).status = 403 ↔
      ∃ p, findById db pid = some p ∧ p.createdBy ≠ uid := by
  unfold updateProduct
  cases hf : findById db pid with
  | none => simp [UpdateResult.status]
  | some p =>
    by_cases hcb : p.createdBy = uid <;>
      by_cases hv : validUpdatePaths b <;>
        simp [hcb, hv, UpdateResult.status]

lemma deleteProduct_404 (db : DB) (uid : UserId) (pid : ProductId) :
    (deleteProduct db uid pid).status = 404 ↔ findById db pid = none := by
  unfold deleteProduct
  cases hf : findById db pid with
  | none => simp [DeleteResult.status]
  | some p =>
    by_cases hcb : p.createdBy = uid <;> simp [hcb, DeleteResult.status]

lemma deleteProduct_403 (db : DB) (uid : UserId) (pid : ProductId) :
    (deleteProduct db uid pid).status = 403 ↔
      ∃ p, findById db pid = some p ∧ p.createdBy ≠ uid := by
  unfold deleteProduct
  cases hf : findById db pid with
  | none => simp [DeleteResult.status]
  | some p =>
    by_cases hcb : p.createdBy = uid <;> simp [hcb, DeleteResult.status]

lemma updateQuantity_404 (db : DB) (uid : UserId) (pid : ProductId)
    (amount : ℚ) (operation : String) (hamt : 0 ≤ amount) :
    (updateQuantity db uid pid amount operation).status = 404 ↔
      findById db pid = none := by
  unfold updateQuantity
  rw [decide_eq_false (not_lt.mpr hamt)]
  simp only [Bool.false_eq_true, if_false]
  split
  next hnone => simp [hnone, QuantityResult.status]
  next p hsome =>
    rw [hsome]
    split
    next => simp [QuantityResult.status]
    next => split <;> simp [QuantityResult.status]

lemma updateQuantity_403 (db : DB) (uid : UserId) (pid : ProductId)
    (amount : ℚ) (operation : String) (hamt : 0 ≤ amount) :
    (updateQuantity db uid pid amount operation).status = 403 ↔
      ∃ p, findById db pid = some p ∧ p.createdBy ≠ uid := by
  unfold updateQuantity
  rw [decide_eq_false (not_lt.mpr hamt)]
  simp only [Bool.false_eq_true, if_false]
  split
  next hnone => simp [hnone, QuantityResult.status]
  next p hsome =>
    rw [hsome]
    split
    next hown => simp_all [QuantityResult.status]
    next hown => split <;> simp_all [QuantityResult.status]

/-! ### Claim C1 -/

/-- Claim C1: for every authenticated user and every product id, `getProduct`,
`updateProduct`, `deleteProduct` and `updateQuantity` answer 404 exactly when
no product with that id exists, and 403 exactly when the product exists but
its `createdBy` is not the caller — so the existence check precedes the
ownership check and a 403 is produced only for ids that exist.  (For
`updateQuantity` the body amount must be a non-negative number, since the
controller checks that before touching the store.) -/
theorem C1_existence_checked_before_ownership (db : DB) (uid : UserId)
    (pid : ProductId) (b : UpdateBody) (amount : ℚ) (operation : String)
    (hamt : 0 ≤ amount) :
    (((getProduct db uid pid).status = 404 ↔ findById db pid = none) ∧
     ((getProduct db uid pid).status = 403 ↔
       ∃ p, findById db pid = some p ∧ p.createdBy ≠ uid)) ∧
    (((updateProduct db uid pid b).status = 404 ↔ findById db pid = none) ∧
     ((updateProduct db uid pid b).status = 403 ↔
       ∃ p, findById db pid = some p ∧ p.createdBy ≠ uid)) ∧
    (((deleteProduct db uid pid).status = 404 ↔ findById db pid = none) ∧
     ((deleteProduct db uid pid).status = 403 ↔
       ∃ p, findById db pid = some p ∧ p.createdBy ≠ uid)) ∧
    (((updateQuantity db uid pid amount operation).status = 404 ↔
       findById db pid = none) ∧
     ((updateQuantity db uid pid amount operation).status = 403 ↔
       ∃ p, findById db pid = some p ∧ p.createdBy ≠ uid)) :=
  ⟨⟨getProduct_404 db uid pid, getProduct_403 db uid pid⟩,
   ⟨updateProduct_404 db uid pid b, updateProduct_403 db uid pid b⟩,
   ⟨deleteProduct_404 db uid pid, deleteProduct_403 db uid pid⟩,
   ⟨updateQuantity_404 db uid pid amount operation hamt,
    updateQuantity_403 db uid pid amount operation hamt⟩⟩

/-- Witness for C1 at a concrete state: one product (id 1) owned by user 0;
user 7 probing id 1 gets 403 (it exists, not theirs), and ids 2 is a 404. -/
theorem C1_witness :
    ((getProduct
        [(1, { name := "Widget", description := "d", sku := "S", category := "c",
               price := 5, cost := 1, quantity := 2, minQuantity := 0, unit := "u",
               isActive := true, createdBy := 0, createdAt := 0 })] 7 1).status = 404 ↔
      findById
        [(1, { name := "Widget", description := "d", sku := "S", category := "c",
               price := 5, cost := 1, quantity := 2, minQuantity := 0, unit := "u",
               isActive := true, createdBy := 0, createdAt := 0 })] 1 = none) ∧
    ((getProduct
        [(1, { name := "Widget", description := "d", sku := "S", category := "c",
               price := 5, cost := 1, quantity := 2, minQuantity := 0, unit := "u",
               isActive := true, createdBy := 0, createdAt := 0 })] 7 1).status = 403 ↔
      ∃ p, findById
        [(1, { name := "Widget", description := "d", sku := "S", category := "c",
               price := 5, cost := 1, quantity := 2, minQuantity := 0, unit := "u",
               isActive := true, createdBy := 0, createdAt := 0 })] 1 = some p ∧
        p.createdBy ≠ 7) :=
  (C1_existence_checked_before_ownership
    [(1, { name := "Widget", description := "d", sku := "S", category := "c",
           price := 5, cost := 1, quantity := 2, minQuantity := 0, unit := "u",
           isActive := true, createdBy := 0, createdAt := 0 })]
    7 1 {} 1 "set" (by decide)).1

/-! ### Claim C2 -/

lemma validProduct_quantity_nonneg {p : Product} (h : validProduct p = true) :
    0 ≤ p.quantity := by
  unfold validProduct at h
  simp only [Bool.and_eq_true, decide_eq_true_eq] at h
  exact h.1.2

lemma validProduct_setQuantity {p : Product} (h : validProduct p = true)
    {q : ℚ} (hq : 0 ≤ q) : validProduct { p with quantity := q } = true := by
  unfold validProduct at h ⊢
  simp only [Bool.and_eq_true, decide_eq_true_eq] at h ⊢
  tauto

lemma newQuantityFor_add (c a : ℚ) : newQuantityFor "add" c a = c + a := rfl

lemma newQuantityFor_subtract (c a : ℚ) :
    newQuantityFor "subtract" c a = max 0 (c - a) := rfl

lemma newQuantityFor_set (c a : ℚ) : newQuantityFor "set" c a = a := rfl

lemma newQuantityFor_nonneg {p : Product} (operation : String) {amount : ℚ}
    (hp : 0 ≤ p.quantity) (hamt : 0 ≤ amount) :
    0 ≤ newQuantityFor operation p.quantity amount := by
  unfold newQuantityFor
  split
  · exact add_nonneg hp hamt
  · split
    · exact le_max_left 0 _
    · exact hamt

lemma updateQuantity_ok {db : DB} {uid : UserId} {pid : ProductId} {p : Product}
    {amount : ℚ} (operation : String)
    (hfind : findById db pid = some p) (hown : p.createdBy = uid)
    (hamt : 0 ≤ amount) (hvalid : validProduct p = true) :
    updateQuantity db uid pid amount operation =
      .ok (updateById db pid
            (fun _ => { p with quantity := newQuantityFor operation p.quantity amount }))
          { p with quantity := newQuantityFor operation p.quantity amount } := by
  unfold updateQuantity
  rw [decide_eq_false (not_lt.mpr hamt), hfind]
  have hb : (p.createdBy == uid) = true := beq_iff_eq.mpr hown
  have hv2 : validProduct { p with quantity := newQuantityFor operation p.quantity amount } = true :=
    validProduct_setQuantity hvalid
      (newQuantityFor_nonneg operation (validProduct_quantity_nonneg hvalid) hamt)
  simp [hb, hv2]

/-- Claim C2: on a product the caller owns and a non-negative amount,
`updateQuantity` stores `old + amount` for `"add"`, `amount` for `"set"`, and
`max 0 (old − amount)` for `"subtract"`; in particular subtracting more than
the current quantity stores exactly 0, never a negative value. -/
theorem C2_adjustQuantity_semantics (db : DB) (uid : UserId) (pid : ProductId)
    (p : Product) (amount : ℚ)
    (hfind : findById db pid = some p) (hown : p.createdBy = uid)
    (hamt : 0 ≤ amount) (hvalid : validProduct p = true) :
    (∃ db2, updateQuantity db uid pid amount "add" =
        .ok db2 { p with quantity := p.quantity + amount } ∧
      findById db2 pid = some { p with quantity := p.quantity + amount }) ∧
    (∃ db2, updateQuantity db uid pid amount "set" =
        .ok db2 { p with quantity := amount } ∧
      findById db2 pid = some { p with quantity := amount }) ∧
    (∃ db2, updateQuantity db uid pid amount "subtract" =
        .ok db2 { p with quantity := max 0 (p.quantity - amount) } ∧
      findById db2 pid = some { p with quantity := max 0 (p.quantity - amount) }) ∧
    (p.quantity < amount →
      ∃ db2, updateQuantity db uid pid amount "subtract" =
          .ok db2 { p with quantity := 0 } ∧
        findById db2 pid = some { p with quantity := 0 }) := by
  refine ⟨?_, ?_, ?_, ?_⟩
  · refine ⟨_, ?_,
      findById_updateById (fun _ => { p with quantity := p.quantity + amount }) hfind⟩
    rw [updateQuantity_ok "add" hfind hown hamt hvalid, newQuantityFor_add]
  · refine ⟨_, ?_,
      findById_updateById (fun _ => { p with quantity := amount }) hfind⟩
    rw [updateQuantity_ok "set" hfind hown hamt hvalid, newQuantityFor_set]
  · refine ⟨_, ?_,
      findById_updateById (fun _ => { p with quantity := max 0 (p.quantity - amount) }) hfind⟩
    rw [updateQuantity_ok "subtract" hfind hown hamt hvalid, newQuantityFor_subtract]
  · intro hlt
    have hz : max 0 (p.quantity - amount) = 0 :=
      max_eq_left (sub_nonpos.mpr (le_of_lt hlt))
    have hrw := updateQuantity_ok "subtract" hfind hown hamt hvalid
    rw [newQuantityFor_subtract, hz] at hrw
    exact ⟨_, hrw, by
      have := findById_updateById (fun _ => { p with quantity := max 0 (p.quantity - amount) }) hfind
      rwa [hz] at this⟩

/-- Witness for C2: product id 1 owned by user 0 with quantity 2; amount 5
(greater than the stored quantity, exercising the clamp-to-zero clause). -/
theorem C2_witness :
    (∃ db2, updateQuantity
        [(1, { name := "Widget", description := "d", sku := "S", category := "c",
               price := 5, cost := 1, quantity := 2, minQuantity := 0, unit := "u",
               isActive := true, createdBy := 0, createdAt := 0 })] 0 1 5 "add" =
        .ok db2 { name := "Widget", description := "d", sku := "S", category := "c",
                  price := 5, cost := 1, quantity := 2 + 5, minQuantity := 0, unit := "u",
                  isActive := true, createdBy := 0, createdAt := 0 } ∧
      findById db2 1 =
        some { name := "Widget", description := "d", sku := "S", category := "c",
               price := 5, cost := 1, quantity := 2 + 5, minQuantity := 0, unit := "u",
               isActive := true, createdBy := 0, createdAt := 0 }) ∧
    ((2 : ℚ) < 5 →
      ∃ db2, updateQuantity
          [(1, { name := "Widget", description := "d", sku := "S", category := "c",
                 price := 5, cost := 1, quantity := 2, minQuantity := 0, unit := "u",
                 isActive := true, createdBy := 0, createdAt := 0 })] 0 1 5 "subtract" =
          .ok db2 { name := "Widget", description := "d", sku := "S", category := "c",
                    price := 5, cost := 1, quantity := 0, minQuantity := 0, unit := "u",
                    isActive := true, createdBy := 0, createdAt := 0 } ∧
        findById db2 1 =
          some { name := "Widget", description := "d", sku := "S", category := "c",
                 price := 5, cost := 1, quantity := 0, minQuantity := 0, unit := "u",
                 isActive := true, createdBy := 0, createdAt := 0 }) :=
  ⟨(C2_adjustQuantity_semantics
      [(1, { name := "Widget", description := "d", sku := "S", category := "c",
             price := 5, cost := 1, quantity := 2, minQuantity := 0, unit := "u",
             isActive := true, createdBy := 0, createdAt := 0 })]
      0 1 _ 5 rfl rfl (by decide) (by decide)).1,
   (C2_adjustQuantity_semantics
      [(1, { name := "Widget", description := "d", sku := "S", category := "c",
             price := 5, cost := 1, quantity := 2, minQuantity := 0, unit := "u",
             isActive := true, createdBy := 0, createdAt := 0 })]
      0 1 _ 5 rfl rfl (by decide) (by decide)).2.2.2⟩

/-! ### List-result membership lemmas (used for the list/getById claims) -/

lemma mem_insertSorted {le : Product → Product → Bool} {a x : Product}
    {l : List Product} : a ∈ insertSorted le x l ↔ a = x ∨ a ∈ l := by
  induction l with
  | nil => simp [insertSorted]
  | cons b l ih =>
    unfold insertSorted
    split
    · simp
    · simp only [List.mem_cons, ih]
      tauto

lemma mem_sortProducts {le : Product → Product → Bool} {a : Product}
    {l : List Product} : a ∈ sortProducts le l ↔ a ∈ l := by
  induction l with
  | nil => simp [sortProducts]
  | cons b l ih =>
    unfold sortProducts
    rw [mem_insertSorted]
    simp [ih]

lemma length_insertSorted (le : Product → Product → Bool) (x : Product)
    (l : List Product) : (insertSorted le x l).length = l.length + 1 := by
  induction l with
  | nil => rfl
  | cons b l ih =>
    unfold insertSorted
    split
    · rfl
    · simp [ih]

lemma length_sortProducts (le : Product → Product → Bool) (l : List Product) :
    (sortProducts le l).length = l.length := by
  induction l with
  | nil => rfl
  | cons b l ih =>
    unfold sortProducts
    rw [length_insertSorted, ih]
    simp

lemma mem_getProducts {db : DB} {uid : UserId} {q : ListQuery} {r : Product}
    (h : r ∈ getProducts db uid q) : matchesQuery uid q r = true := by
  unfold getProducts at h
  have h2 : r ∈ sortProducts (sortLe q.sortDesc)
      ((db.filter (fun e => matchesQuery uid q e.2)).map (fun e => e.2)) :=
    List.drop_subset _ _ (List.take_subset _ _ h)
  rw [mem_sortProducts] at h2
  obtain ⟨e, he, rfl⟩ := List.mem_map.mp h2
  exact (List.mem_filter.mp he).2

lemma matchesQuery_base {uid : UserId} {q : ListQuery} {p : Product}
    (h : matchesQuery uid q p = true) :
    p.isActive = true ∧ p.createdBy = uid := by
  unfold matchesQuery at h
  simp only [Bool.and_eq_true, beq_iff_eq] at h
  tauto

/-! ### Claim C3 -/

/-- Claim C3: a login with an email that matches no user and a login with the
email of an existing active user but a password the hash comparison rejects
both fail with an `AuthenticationError` carrying the identical message
"Email or password is incorrect", so the response does not reveal whether the
email is registered. -/
theorem C3_login_no_email_leak (users : UserDB) (verify : String → String → Bool)
    (e1 pw1 e2 pw2 : String) (u : User)
    (h1 : users.find? (fun v => v.email == e1) = none)
    (h2 : users.find? (fun v => v.email == e2) = some u)
    (hact : u.isActive = true)
    (hpw : verify u.password pw2 = false) :
    login users verify e1 pw1 = .authError "Email or password is incorrect" ∧
    login users verify e2 pw2 = .authError "Email or password is incorrect" := by
  constructor
  · unfold login
    rw [h1]
  · unfold login
    rw [h2]
    simp [hact, hpw]

/-- Witness for C3: one registered active user `alice@x.com` whose stored hash
only matches the password `"right"`; probing `ghost@x.com` and probing
`alice@x.com` with `"wrong"` produce the same error value. -/
theorem C3_witness :
    login [{ id := 0, username := "alice", email := "alice@x.com",
             password := "hash-of-right", role := "user", isActive := true }]
      (fun stored candidate => stored == "hash-of-" ++ candidate)
      "ghost@x.com" "whatever" = .authError "Email or password is incorrect" ∧
    login [{ id := 0, username := "alice", email := "alice@x.com",
             password := "hash-of-right", role := "user", isActive := true }]
      (fun stored candidate => stored == "hash-of-" ++ candidate)
      "alice@x.com" "wrong" = .authError "Email or password is incorrect" :=
  C3_login_no_email_leak
    [{ id := 0, username := "alice", email := "alice@x.com",
       password := "hash-of-right", role := "user", isActive := true }]
    (fun stored candidate => stored == "hash-of-" ++ candidate)
    "ghost@x.com" "whatever" "alice@x.com" "wrong"
    { id := 0, username := "alice", email := "alice@x.com",
      password := "hash-of-right", role := "user", isActive := true }
    (by decide) (by decide) rfl (by decide)

/-! ### Claim C10 -/

/-- Claim C10: `getProduct` does not filter on the active flag — the owner of
a soft-deleted (inactive) product still gets a 200 with the record from
`getProduct`, even though that product appears in no list result (for any
combination of filters). -/
theorem C10_getById_ignores_active_flag (db : DB) (uid : UserId)
    (pid : ProductId) (p : Product)
    (hfind : findById db pid = some p) (hown : p.createdBy = uid)
    (hinactive : p.isActive = false) :
    getProduct db uid pid = .ok p ∧
    (getProduct db uid pid).status = 200 ∧
    ∀ q : ListQuery, p ∉ getProducts db uid q := by
  have hget : getProduct db uid pid = .ok p := by
    unfold getProduct
    rw [hfind]
    simp [hown]
  refine ⟨hget, by rw [hget]; rfl, ?_⟩
  intro q hmem
  have := (matchesQuery_base (mem_getProducts hmem)).1
  rw [hinactive] at this
  exact Bool.false_ne_true this

/-- Witness for C10: product id 1 is inactive (soft-deleted), owned by user 0;
its owner's `getProduct` still answers 200 with the record, and the record is
absent from the default list query's result. -/
theorem C10_witness :
    getProduct
      [(1, { name := "Widget", description := "d", sku := "S", category := "c",
             price := 5, cost := 1, quantity := 2, minQuantity := 0, unit := "u",
             isActive := false, createdBy := 0, createdAt := 0 })] 0 1 =
      .ok { name := "Widget", description := "d", sku := "S", category := "c",
            price := 5, cost := 1, quantity := 2, minQuantity := 0, unit := "u",
            isActive := false, createdBy := 0, createdAt := 0 } ∧
    (getProduct
      [(1, { name := "Widget", description := "d", sku := "S", category := "c",
             price := 5, cost := 1, quantity := 2, minQuantity := 0, unit := "u",
             isActive := false, createdBy := 0, createdAt := 0 })] 0 1).status = 200 ∧
    { name := "Widget", description := "d", sku := "S", category := "c",
      price := 5, cost := 1, quantity := 2, minQuantity := 0, unit := "u",
      isActive := false, createdBy := 0, createdAt := 0 : Product } ∉
      getProducts
        [(1, { name := "Widget", description := "d", sku := "S", category := "c",
               price := 5, cost := 1, quantity := 2, minQuantity := 0, unit := "u",
               isActive := false, createdBy := 0, createdAt := 0 })] 0 {} :=
  ⟨(C10_getById_ignores_active_flag
      [(1, { name := "Widget", description := "d", sku := "S", category := "c",
             price := 5, cost := 1, quantity := 2, minQuantity := 0, unit := "u",
             isActive := false, createdBy := 0, createdAt := 0 })]
      0 1 _ rfl rfl rfl).1,
   (C10_getById_ignores_active_flag
      [(1, { name := "Widget", description := "d", sku := "S", category := "c",
             price := 5, cost := 1, quantity := 2, minQuantity := 0, unit := "u",
             isActive := false, createdBy := 0, createdAt := 0 })]
      0 1 _ rfl rfl rfl).2.1,
   (C10_getById_ignores_active_flag
      [(1, { name := "Widget", description := "d", sku := "S", category := "c",
             price := 5, cost := 1, quantity := 2, minQuantity := 0, unit := "u",
             isActive := false, createdBy := 0, createdAt := 0 })]
      0 1 _ rfl rfl rfl).2.2 {}⟩

/-! ### Claim C7 -/

/-- Counterexample to C7 as stated: a category filter is a supported filter
combination, and under it the list result is not "exactly the products whose
`createdBy` equals the caller's id and whose active flag is true" — here an
owned, active product is excluded by the filter, so the result is empty. -/
theorem C7_counterexample :
    ({ name := "Laptop", description := "d", sku := "S", category := "electronics",
       price := 5, cost := 1, quantity := 2, minQuantity := 0, unit := "u",
       isActive := true, createdBy := 0, createdAt := 0 : Product }).isActive = true ∧
    ({ name := "Laptop", description := "d", sku := "S", category := "electronics",
       price := 5, cost := 1, quantity := 2, minQuantity := 0, unit := "u",
       isActive := true, createdBy := 0, createdAt := 0 : Product }).createdBy = 0 ∧
    getProducts
      [(1, { name := "Laptop", description := "d", sku := "S", category := "electronics",
             price := 5, cost := 1, quantity := 2, minQuantity := 0, unit := "u",
             isActive := true, createdBy := 0, createdAt := 0 })] 0
      { category := some "toys" } = [] := by
  refine ⟨rfl, rfl, ?_⟩
  decide

lemma deleteProduct_ok_inactive {db db2 : DB} {uid : UserId} {pid : ProductId}
    {p2 : Product} (h : deleteProduct db uid pid = .ok db2 p2) :
    p2.isActive = false := by
  unfold deleteProduct at h
  split at h
  next => exact absurd h (by simp)
  next p heq =>
    split at h
    next => exact absurd h (by simp)
    next =>
      injection h with h1 h2
      rw [← h2]

/-- Claim C7 (amended): for every filter combination the list operation
returns only products owned by the caller with the active flag true (the
result is the filter-matching, page-windowed subset of those, not always all
of them — a category/search/price/stock filter or pagination can exclude an
owned active product, see the counterexample); with no optional filters, page
1 and at most `limit` matching products it returns exactly the owner's active
products; and a successful `deleteProduct` yields an inactive record that
appears in no list result over the updated collection. -/
theorem C7_amended_list_soundness (db : DB) (uid : UserId) (q : ListQuery)
    (pid : ProductId) :
    (∀ r ∈ getProducts db uid q, r.createdBy = uid ∧ r.isActive = true) ∧
    (∀ db2 p2, deleteProduct db uid pid = .ok db2 p2 →
      p2.isActive = false ∧ ∀ q2 : ListQuery, p2 ∉ getProducts db2 uid q2) ∧
    (q.category = none → q.search = none → q.minPrice = none → q.maxPrice = none →
      q.stockStatus = none → q.page = 1 →
      (db.filter (fun e => e.2.isActive && (e.2.createdBy == uid))).length ≤ q.limit →
      ∀ r, r ∈ getProducts db uid q ↔
        r ∈ (db.filter (fun e => e.2.isActive && (e.2.createdBy == uid))).map
              (fun e => e.2)) := by
  refine ⟨?_, ?_, ?_⟩
  · intro r hr
    have h := matchesQuery_base (mem_getProducts hr)
    exact ⟨h.2, h.1⟩
  · intro db2 p2 hdel
    have hinact := deleteProduct_ok_inactive hdel
    refine ⟨hinact, ?_⟩
    intro q2 hmem
    have := (matchesQuery_base (mem_getProducts hmem)).1
    rw [hinact] at this
    exact Bool.false_ne_true this
  · intro hcat hsearch hmin hmax hstock hpage hlen r
    have hmq : (fun e : ProductId × Product => matchesQuery uid q e.2) =
        (fun e => e.2.isActive && (e.2.createdBy == uid)) := by
      funext e
      unfold matchesQuery
      rw [hcat, hsearch, hmin, hmax, hstock]
      simp
    unfold getProducts
    rw [hmq, hpage]
    simp only [Nat.sub_self, Nat.zero_mul, List.drop_zero]
    rw [List.take_of_length_le, mem_sortProducts]
    rw [length_sortProducts, List.length_map]
    exact hlen

/-- Witness for C7's amended theorem: one active product owned by user 0; the
default query returns it (exactness), deleting it yields an inactive record
absent from the default query over the new state. -/
theorem C7_witness :
    ({ name := "Laptop", description := "d", sku := "S", category := "electronics",
       price := 5, cost := 1, quantity := 2, minQuantity := 0, unit := "u",
       isActive := true, createdBy := 0, createdAt := 0 : Product } ∈
      getProducts
        [(1, { name := "Laptop", description := "d", sku := "S", category := "electronics",
               price := 5, cost := 1, quantity := 2, minQuantity := 0, unit := "u",
               isActive := true, createdBy := 0, createdAt := 0 })] 0 {} ↔
      { name := "Laptop", description := "d", sku := "S", category := "electronics",
        price := 5, cost := 1, quantity := 2, minQuantity := 0, unit := "u",
        isActive := true, createdBy := 0, createdAt := 0 : Product } ∈
      ([(1, { name := "Laptop", description := "d", sku := "S", category := "electronics",
              price := 5, cost := 1, quantity := 2, minQuantity := 0, unit := "u",
              isActive := true, createdBy := 0, createdAt := 0 })].filter
          (fun e => e.2.isActive && (e.2.createdBy == 0))).map (fun e => e.2)) ∧
    ({ name := "Laptop", description := "d", sku := "S", category := "electronics",
       price := 5, cost := 1, quantity := 2, minQuantity := 0, unit := "u",
       isActive := false, createdBy := 0, createdAt := 0 : Product }).isActive = false ∧
    { name := "Laptop", description := "d", sku := "S", category := "electronics",
      price := 5, cost := 1, quantity := 2, minQuantity := 0, unit := "u",
      isActive := false, createdBy := 0, createdAt := 0 : Product } ∉
      getProducts
        [(1, { name := "Laptop", description := "d", sku := "S", category := "electronics",
               price := 5, cost := 1, quantity := 2, minQuantity := 0, unit := "u",
               isActive := false, createdBy := 0, createdAt := 0 })] 0 {} :=
  ⟨(C7_amended_list_soundness
      [(1, { name := "Laptop", description := "d", sku := "S", category := "electronics",
             price := 5, cost := 1, quantity := 2, minQuantity := 0, unit := "u",
             isActive := true, createdBy := 0, createdAt := 0 })] 0 {} 1).2.2
      rfl rfl rfl rfl rfl rfl (by decide) _,
   ((C7_amended_list_soundness
      [(1, { name := "Laptop", description := "d", sku := "S", category := "electronics",
             price := 5, cost := 1, quantity := 2, minQuantity := 0, unit := "u",
             isActive := true, createdBy := 0, createdAt := 0 })] 0 {} 1).2.1
      [(1, { name := "Laptop", description := "d", sku := "S", category := "electronics",
             price := 5, cost := 1, quantity := 2, minQuantity := 0, unit := "u",
             isActive := false, createdBy := 0, createdAt := 0 })]
      { name := "Laptop", description := "d", sku := "S", category := "electronics",
        price := 5, cost := 1, quantity := 2, minQuantity := 0, unit := "u",
        isActive := false, createdBy := 0, createdAt := 0 }
      (by decide)).1,
   ((C7_amended_list_soundness
      [(1, { name := "Laptop", description := "d", sku := "S", category := "electronics",
             price := 5, cost := 1, quantity := 2, minQuantity := 0, unit := "u",
             isActive := true, createdBy := 0, createdAt := 0 })] 0 {} 1).2.1
      [(1, { name := "Laptop", description := "d", sku := "S", category := "electronics",
             price := 5, cost := 1, quantity := 2, minQuantity := 0, unit := "u",
             isActive := false, createdBy := 0, createdAt := 0 })]
      { name := "Laptop", description := "d", sku := "S", category := "electronics",
        price := 5, cost := 1, quantity := 2, minQuantity := 0, unit := "u",
        isActive := false, createdBy := 0, createdAt := 0 }
      (by decide)).2 {}⟩

/-! ### Claim C4 -/

lemma findById_append {db : DB} {pid : ProductId} {p : Product} (l : DB)
    (h : findById db pid = some p) : findById (db ++ l) pid = some p := by
  induction db with
  | nil => simp [findById] at h
  | cons e rest ih =>
    obtain ⟨i, q⟩ := e
    rw [List.cons_append, findById_cons]
    rw [findById_cons] at h
    by_cases hi : i = pid
    · rwa [if_pos hi] at h ⊢
    · rw [if_neg hi] at h ⊢
      exact ih h

lemma findById_updateById_ne {db : DB} {pid pid' : ProductId}
    (f : Product → Product) (h : pid' ≠ pid) :
    findById (updateById db pid' f) pid = findById db pid := by
  induction db with
  | nil => rfl
  | cons e rest ih =>
    obtain ⟨i, q⟩ := e
    unfold updateById
    by_cases hi : i = pid'
    · rw [if_pos (beq_iff_eq.mpr hi), findById_cons, findById_cons]
      rw [if_neg (hi ▸ h), if_neg (hi ▸ h)]
    · rw [if_neg (by simpa using hi), findById_cons, findById_cons]
      by_cases hip : i = pid
      · rw [if_pos hip, if_pos hip]
      · rw [if_neg hip, if_neg hip]
        exact ih

lemma createProduct_created_inv {db db2 : DB} {uid : UserId} {pid' : ProductId}
    {now : Nat} {b : CreateBody} {p2 : Product}
    (h : createProduct db uid pid' now b = .created db2 p2) :
    db2 = db ++ [(pid', buildProduct b uid now)] := by
  unfold createProduct at h
  split at h
  · exact absurd h (by simp)
  · split at h
    · exact absurd h (by simp)
    · injection h with h1 h2
      exact h1.symm

lemma updateProductRoute_ok_inv {db db2 : DB} {uid : UserId} {pid' : ProductId}
    {b : UpdateBody} {p2 : Product}
    (h : updateProductRoute db uid pid' b = .ok db2 p2) :
    db2 = updateById db pid' (applyUpdate b) := by
  unfold updateProductRoute at h
  split at h
  · exact absurd h (by simp)
  · unfold updateProduct at h
    split at h
    · exact absurd h (by simp)
    · split at h
      · exact absurd h (by simp)
      · split at h
        · injection h with h1 h2
          exact h1.symm
        · exact absurd h (by simp)

lemma deleteProduct_ok_inv {db db2 : DB} {uid : UserId} {pid' : ProductId}
    {p2 : Product} (h : deleteProduct db uid pid' = .ok db2 p2) :
    db2 = updateById db pid' (fun q => { q with isActive := false }) := by
  unfold deleteProduct at h
  split at h
  · exact absurd h (by simp)
  · split at h
    · exact absurd h (by simp)
    · injection h with h1 h2
      exact h1.symm

lemma updateQuantity_ok_inv {db db2 : DB} {uid : UserId} {pid' : ProductId}
    {amount : ℚ} {operation : String} {p2 : Product}
    (h : updateQuantity db uid pid' amount operation = .ok db2 p2) :
    ∃ pf, findById db pid' = some pf ∧
      p2 = { pf with quantity := newQuantityFor operation pf.quantity amount } ∧
      db2 = updateById db pid' (fun _ => p2) := by
  unfold updateQuantity at h
  split at h
  · exact absurd h (by simp)
  · split at h
    next => exact absurd h (by simp)
    next pf heq =>
      split at h
      · exact absurd h (by simp)
      · split at h
        · injection h with h1 h2
          exact ⟨pf, heq, h2.symm, by rw [← h1, h2]⟩
        · exact absurd h (by simp)

/-- The amended safety condition: the request is anything except a product
update whose body carries `isActive: true`. -/
def opPreservesInactive : Op → Prop
  | .updateOp _ _ b => b.isActive ≠ some true
  | _ => True

lemma applyUpdate_isActive_false {b : UpdateBody} (hb : b.isActive ≠ some true)
    {q : Product} (hq : q.isActive = false) : (applyUpdate b q).isActive = false := by
  unfold applyUpdate
  cases hba : b.isActive with
  | none => simpa using hq
  | some v =>
    cases v with
    | false => simp
    | true => exact absurd hba hb

lemma stepDb_preserves_inactive (op : Op) (db : DB) (pid : ProductId)
    (p : Product) (hsafe : opPreservesInactive op)
    (hfind : findById db pid = some p) (hinact : p.isActive = false) :
    ∃ p2, findById (stepDb op db) pid = some p2 ∧ p2.isActive = false := by
  cases op with
  | createOp uid i now b =>
    cases hres : createProduct db uid i now b with
    | badRequest msgs =>
      simp only [stepDb, hres]
      exact ⟨p, hfind, hinact⟩
    | created db2 pc =>
      simp only [stepDb, hres]
      rw [createProduct_created_inv hres]
      exact ⟨p, findById_append _ hfind, hinact⟩
  | listOp uid q =>
    simp only [stepDb]
    exact ⟨p, hfind, hinact⟩
  | getOp uid i =>
    simp only [stepDb]
    exact ⟨p, hfind, hinact⟩
  | updateOp uid i b =>
    cases hres : updateProductRoute db uid i b with
    | ok db2 pu =>
      simp only [stepDb, hres]
      rw [updateProductRoute_ok_inv hres]
      by_cases hip : i = pid
      · subst hip
        exact ⟨applyUpdate b p, findById_updateById _ hfind,
          applyUpdate_isActive_false hsafe hinact⟩
      · exact ⟨p, by rw [findById_updateById_ne _ hip]; exact hfind, hinact⟩
    | badRequest m => simp only [stepDb, hres]; exact ⟨p, hfind, hinact⟩
    | notFound m => simp only [stepDb, hres]; exact ⟨p, hfind, hinact⟩
    | forbidden m => simp only [stepDb, hres]; exact ⟨p, hfind, hinact⟩
    | serverError => simp only [stepDb, hres]; exact ⟨p, hfind, hinact⟩
  | deleteOp uid i =>
    cases hres : deleteProduct db uid i with
    | ok db2 pd =>
      simp only [stepDb, hres]
      rw [deleteProduct_ok_inv hres]
      by_cases hip : i = pid
      · subst hip
        exact ⟨{ p with isActive := false },
          findById_updateById (fun q => { q with isActive := false }) hfind, rfl⟩
      · exact ⟨p, by rw [findById_updateById_ne _ hip]; exact hfind, hinact⟩
    | notFound m => simp only [stepDb, hres]; exact ⟨p, hfind, hinact⟩
    | forbidden m => simp only [stepDb, hres]; exact ⟨p, hfind, hinact⟩
  | quantityOp uid i amount operation =>
    cases hres : updateQuantity db uid i amount operation with
    | ok db2 pq =>
      simp only [stepDb, hres]
      obtain ⟨pf, hpf, hpq, hdb2⟩ := updateQuantity_ok_inv hres
      rw [hdb2]
      by_cases hip : i = pid
      · subst hip
        obtain rfl : pf = p := Option.some.inj (hpf ▸ hfind ▸ rfl)
        refine ⟨pq, findById_updateById (fun _ => pq) hfind, ?_⟩
        rw [hpq]
        exact hinact
      · exact ⟨p, by rw [findById_updateById_ne _ hip]; exact hfind, hinact⟩
    | badRequest m => simp only [stepDb, hres]; exact ⟨p, hfind, hinact⟩
    | notFound m => simp only [stepDb, hres]; exact ⟨p, hfind, hinact⟩
    | forbidden m => simp only [stepDb, hres]; exact ⟨p, hfind, hinact⟩
    | serverError => simp only [stepDb, hres]; exact ⟨p, hfind, hinact⟩

/-- Counterexample to C4 as stated: from the empty store, create product 1,
soft-delete it (active flag now false), then issue a PUT whose body is
`{isActive: true}` — the body passes `commonValidations.productUpdate`
untouched, `findByIdAndUpdate` applies it, and the product is active again.
So an exposed public operation does transition the active flag from false
back to true. -/
theorem C4_counterexample :
    (findById (runOps
      [Op.createOp 0 1 0
         { name := some "Widget", description := some "desc",
           sku := some "SKU1", category := some "tools", price := some 5,
           cost := some 2, quantity := some 3, unit := some "pcs" },
       Op.deleteOp 0 1] []) 1).map Product.isActive = some false ∧
    (findById (runOps
      [Op.createOp 0 1 0
         { name := some "Widget", description := some "desc",
           sku := some "SKU1", category := some "tools", price := some 5,
           cost := some 2, quantity := some 3, unit := some "pcs" },
       Op.deleteOp 0 1,
       Op.updateOp 0 1 { isActive := some true }] []) 1).map Product.isActive =
      some true := by
  constructor
  · decide
  · decide

/-- Claim C4 (amended): for every sequence of public product operations none
of which is an update whose body sets `isActive` to `true`, a product whose
active flag is false keeps a false active flag in every later state; the
excluded case is real — an update body carrying `isActive: true` re-activates
the product, as the counterexample shows. -/
theorem C4_amended_no_reactivation (ops : List Op) (db : DB) (pid : ProductId)
    (p : Product) (hsafe : ∀ op ∈ ops, opPreservesInactive op)
    (hfind : findById db pid = some p) (hinact : p.isActive = false) :
    ∀ q, findById (runOps ops db) pid = some q → q.isActive = false := by
  induction ops generalizing db p with
  | nil =>
    intro q hq
    rw [show runOps [] db = db from rfl] at hq
    obtain rfl : p = q := Option.some.inj (hfind ▸ hq)
    exact hinact
  | cons op rest ih =>
    obtain ⟨p2, hfind2, hinact2⟩ :=
      stepDb_preserves_inactive op db pid p (hsafe op (List.mem_cons_self op rest))
        hfind hinact
    intro q hq
    exact ih (stepDb op db) p2
      (fun o ho => hsafe o (List.mem_cons_of_mem op ho)) hfind2 hinact2 q hq

/-- Witness for C4's amended theorem: product 1 starts inactive; after a
soft-delete, a quantity adjustment and an update that does not touch
`isActive`, the stored record is still inactive. -/
theorem C4_witness :
    findById (runOps
        [Op.deleteOp 0 1, Op.quantityOp 0 1 4 "set",
         Op.updateOp 0 1 { price := some 9 }]
        [(1, { name := "Widget", description := "d", sku := "S", category := "c",
               price := 5, cost := 1, quantity := 2, minQuantity := 0, unit := "u",
               isActive := false, createdBy := 0, createdAt := 0 })]) 1 =
      some { name := "Widget", description := "d", sku := "S", category := "c",
             price := 9, cost := 1, quantity := 4, minQuantity := 0, unit := "u",
             isActive := false, createdBy := 0, createdAt := 0 } ∧
    ({ name := "Widget", description := "d", sku := "S", category := "c",
       price := 9, cost := 1, quantity := 4, minQuantity := 0, unit := "u",
       isActive := false, createdBy := 0, createdAt := 0 : Product }).isActive = false :=
  ⟨by decide,
   C4_amended_no_reactivation
    [Op.deleteOp 0 1, Op.quantityOp 0 1 4 "set", Op.updateOp 0 1 { price := some 9 }]
    [(1, { name := "Widget", description := "d", sku := "S", category := "c",
           price := 5, cost := 1, quantity := 2, minQuantity := 0, unit := "u",
           isActive := false, createdBy := 0, createdAt := 0 })]
    1 _
    (by
      intro op hop
      fin_cases hop <;> simp [opPreservesInactive])
    rfl rfl
    { name := "Widget", description := "d", sku := "S", category := "c",
      price := 9, cost := 1, quantity := 4, minQuantity := 0, unit := "u",
      isActive := false, createdBy := 0, createdAt := 0 }
    (by decide)⟩

/-! ### Claim C5 -/

/-- Counterexample to C5 as stated: "alice" (email `alice@x.com`) was stored
before "bob" (email `bob@x.com`).  A registration asking for username "alice"
and email `bob@x.com` hits an email conflict (bob holds that email), yet the
message names the username conflict, because `findOne({$or})` returned the
first matching stored user (alice) and her email differs from the requested
one — the email conflict is not checked with priority. -/
theorem C5_counterexample :
    (∃ u ∈ ([{ id := 0, username := "alice", email := "alice@x.com",
               password := "h1", role := "user", isActive := true },
             { id := 1, username := "bob", email := "bob@x.com",
               password := "h2", role := "user", isActive := true }] : UserDB),
      u.email = "bob@x.com") ∧
    register [{ id := 0, username := "alice", email := "alice@x.com",
                password := "h1", role := "user", isActive := true },
              { id := 1, username := "bob", email := "bob@x.com",
                password := "h2", role := "user", isActive := true }]
      2 (fun s => s) "alice" "bob@x.com" "Password1" none =
      .conflict "Username is already taken" ∧
    "Username is already taken" ≠ "Email is already registered" := by
  refine ⟨⟨{ id := 1, username := "bob", email := "bob@x.com",
             password := "h2", role := "user", isActive := true },
           by decide, rfl⟩, by decide, by decide⟩

/-- Claim C5 (amended): whenever some stored user holds the requested email
or the requested username, register fails with a ConflictError; the message
is chosen by the first matching user in collection order — it names the
email conflict exactly when that user's email is the requested email (in
particular whenever one user holds both), and the username conflict
otherwise.  Email-conflict priority between two different stored users is
not guaranteed; it follows collection order (see the counterexample). -/
theorem C5_amended_conflict_message (users : UserDB) (newId : UserId)
    (hash : String → String) (username email password : String)
    (role : Option String) (w : User) (hw : w ∈ users)
    (hmatch : w.email = email ∨ w.username = username) :
    (∃ msg, register users newId hash username email password role =
      .conflict msg) ∧
    (∀ ex, users.find? (fun u => (u.email == email) || (u.username == username)) =
        some ex →
      register users newId hash username email password role =
        .conflict (if ex.email = email then "Email is already registered"
                   else "Username is already taken")) := by
  have hfound : (users.find?
      (fun u => (u.email == email) || (u.username == username))).isSome := by
    rw [List.find?_isSome]
    refine ⟨w, hw, ?_⟩
    rcases hmatch with h | h <;> simp [h]
  constructor
  · obtain ⟨ex, hex⟩ := Option.isSome_iff_exists.mp hfound
    refine ⟨if ex.email == email then "Email is already registered"
            else "Username is already taken", ?_⟩
    unfold register
    rw [hex]
  · intro ex hex
    unfold register
    rw [hex]
    by_cases h : ex.email = email
    · simp [h]
    · simp [h, beq_eq_false_iff_ne.mpr h]

/-- Witness for C5's amended theorem: a single stored user "carol" holds both
the requested email and the requested username, and the produced message is
the email one. -/
theorem C5_witness :
    (∃ msg, register [{ id := 0, username := "carol", email := "carol@x.com",
                        password := "h", role := "user", isActive := true }]
      1 (fun s => s) "carol" "carol@x.com" "Password1" none = .conflict msg) ∧
    register [{ id := 0, username := "carol", email := "carol@x.com",
                password := "h", role := "user", isActive := true }]
      1 (fun s => s) "carol" "carol@x.com" "Password1" none =
      .conflict "Email is already registered" :=
  ⟨(C5_amended_conflict_message
      [{ id := 0, username := "carol", email := "carol@x.com",
         password := "h", role := "user", isActive := true }]
      1 (fun s => s) "carol" "carol@x.com" "Password1" none
      { id := 0, username := "carol", email := "carol@x.com",
        password := "h", role := "user", isActive := true }
      (by decide) (Or.inl rfl)).1,
   ((C5_amended_conflict_message
      [{ id := 0, username := "carol", email := "carol@x.com",
         password := "h", role := "user", isActive := true }]
      1 (fun s => s) "carol" "carol@x.com" "Password1" none
      { id := 0, username := "carol", email := "carol@x.com",
        password := "h", role := "user", isActive := true }
      (by decide) (Or.inl rfl)).2
      { id := 0, username := "carol", email := "carol@x.com",
        password := "h", role := "user", isActive := true }
      (by decide)).trans (by decide)⟩

/-! ### Claim C9 -/

/-- Counterexample to C9 as stated: a request supplying the empty string as
role passes the `userRegister` chain (which never examines `role`), but
`role || 'user'` treats the supplied empty string as falsy, so the stored
role is "user" — a supplied role is not always persisted verbatim, and a
missing role is not the only case that falls back to "user". -/
theorem C9_counterexample :
    register [] 7 (fun s => s) "alice" "alice@x.com" "Password1" (some "") =
      .created { id := 7, username := "alice", email := "alice@x.com",
                 password := "Password1", role := "user", isActive := true } ∧
    "user" ≠ "" := by
  exact ⟨by decide, by decide⟩

/-- Claim C9 (amended): registration restricts the admin role by nothing but
the schema enum — with no conflicting user, a request carrying role "admin"
stores "admin" verbatim; both a missing role and a supplied empty-string role
fall back to "user" (`role || 'user'` treats `""` as falsy); any other
supplied role fails the `['user','admin']` enum validation and no user is
persisted. -/
theorem C9_amended_role_handling (users : UserDB) (newId : UserId)
    (hash : String → String) (username email password : String)
    (hno : users.find?
      (fun u => (u.email == email) || (u.username == username)) = none) :
    (register users newId hash username email password (some "admin") =
      .created { id := newId, username := username, email := email,
                 password := hash password, role := "admin", isActive := true }) ∧
    (register users newId hash username email password none =
      .created { id := newId, username := username, email := email,
                 password := hash password, role := "user", isActive := true }) ∧
    (register users newId hash username email password (some "") =
      .created { id := newId, username := username, email := email,
                 password := hash password, role := "user", isActive := true }) ∧
    (∀ r, r ≠ "" → r ≠ "user" → r ≠ "admin" →
      register users newId hash username email password (some r) =
        .validationError "`role` is not a valid enum value for path `role`.") := by
  refine ⟨?_, ?_, ?_, ?_⟩
  · unfold register
    rw [hno]
    rfl
  · unfold register
    rw [hno]
    rfl
  · unfold register
    rw [hno]
    rfl
  · intro r hr1 hr2 hr3
    unfold register
    rw [hno]
    simp [beq_eq_false_iff_ne.mpr hr1, beq_eq_false_iff_ne.mpr hr2,
      beq_eq_false_iff_ne.mpr hr3]

/-- Witness for C9's amended theorem on the empty store: "admin" is stored
verbatim, "" falls back to "user", and "superuser" is rejected. -/
theorem C9_witness :
    (register [] 3 (fun s => s) "mallory" "m@x.com" "Password1" (some "admin") =
      .created { id := 3, username := "mallory", email := "m@x.com",
                 password := "Password1", role := "admin", isActive := true }) ∧
    (register [] 3 (fun s => s) "mallory" "m@x.com" "Password1" (some "") =
      .created { id := 3, username := "mallory", email := "m@x.com",
                 password := "Password1", role := "user", isActive := true }) ∧
    (register [] 3 (fun s => s) "mallory" "m@x.com" "Password1" (some "superuser") =
      .validationError "`role` is not a valid enum value for path `role`.") :=
  ⟨(C9_amended_role_handling [] 3 (fun s => s) "mallory" "m@x.com" "Password1" rfl).1,
   (C9_amended_role_handling [] 3 (fun s => s) "mallory" "m@x.com" "Password1" rfl).2.2.1,
   (C9_amended_role_handling [] 3 (fun s => s) "mallory" "m@x.com" "Password1" rfl).2.2.2
     "superuser" (by decide) (by decide) (by decide)⟩

/-! ### Claim C8 -/

/-- Claim C8: the authentication middleware answers 401 with a distinct
message in each of the four failure cases — (a) no token supplied, (b)
invalid signature, (c) expired token, (d) valid signature but the referenced
user absent or inactive — and on success attaches the resolved user with the
password field excluded (`toPublic`, the model of `.select('-password')`). -/
theorem C8_auth_middleware_cases (verify : String → VerifyOutcome)
    (users : UserDB) (header : Option String) (t : String) (userId : UserId)
    (u : User) :
    (auth verify users none = .noToken) ∧
    (extractToken header = some t → t ≠ "" → verify t = .invalidSignature →
      auth verify users header = .invalidToken) ∧
    (extractToken header = some t → t ≠ "" → verify t = .expired →
      auth verify users header = .expiredToken) ∧
    (extractToken header = some t → t ≠ "" → verify t = .ok userId →
      users.find? (fun v => v.id == userId) = none →
      auth verify users header = .userNotFoundOrInactive) ∧
    (extractToken header = some t → t ≠ "" → verify t = .ok userId →
      users.find? (fun v => v.id == userId) = some u → u.isActive = false →
      auth verify users header = .userNotFoundOrInactive) ∧
    (extractToken header = some t → t ≠ "" → verify t = .ok userId →
      users.find? (fun v => v.id == userId) = some u → u.isActive = true →
      auth verify users header = .authenticated (toPublic u)) ∧
    (AuthOutcome.noToken.status = 401 ∧ AuthOutcome.invalidToken.status = 401 ∧
     AuthOutcome.expiredToken.status = 401 ∧
     AuthOutcome.userNotFoundOrInactive.status = 401) ∧
    (AuthOutcome.noToken.message ≠ AuthOutcome.invalidToken.message ∧
     AuthOutcome.noToken.message ≠ AuthOutcome.expiredToken.message ∧
     AuthOutcome.noToken.message ≠ AuthOutcome.userNotFoundOrInactive.message ∧
     AuthOutcome.invalidToken.message ≠ AuthOutcome.expiredToken.message ∧
     AuthOutcome.invalidToken.message ≠ AuthOutcome.userNotFoundOrInactive.message ∧
     AuthOutcome.expiredToken.message ≠ AuthOutcome.userNotFoundOrInactive.message) := by
  refine ⟨rfl, ?_, ?_, ?_, ?_, ?_, ⟨rfl, rfl, rfl, rfl⟩, by decide⟩
  · intro hext ht hver
    unfold auth
    rw [hext]
    simp [beq_eq_false_iff_ne.mpr ht, hver]
  · intro hext ht hver
    unfold auth
    rw [hext]
    simp [beq_eq_false_iff_ne.mpr ht, hver]
  · intro hext ht hver hfind
    unfold auth
    rw [hext]
    simp [beq_eq_false_iff_ne.mpr ht, hver, hfind]
  · intro hext ht hver hfind hact
    unfold auth
    rw [hext]
    simp [beq_eq_false_iff_ne.mpr ht, hver, hfind, hact]
  · intro hext ht hver hfind hact
    unfold auth
    rw [hext]
    simp [beq_eq_false_iff_ne.mpr ht, hver, hfind, hact]

/-- Witness for C8 against a concrete verifier (tokens "good" → user 1,
"dead" → user 2, "exp" expired, anything else invalid) and a store with
active user 1 and inactive user 2: all five outcomes are exercised. -/
theorem C8_witness :
    (auth (fun tok => if tok == "good" then .ok 1 else if tok == "exp" then .expired
        else if tok == "dead" then .ok 2 else if tok == "missing" then .ok 99
        else .invalidSignature)
      [{ id := 1, username := "ann", email := "a@x.com", password := "h",
         role := "user", isActive := true },
       { id := 2, username := "bea", email := "b@x.com", password := "h",
         role := "user", isActive := false }] none = .noToken) ∧
    (auth (fun tok => if tok == "good" then .ok 1 else if tok == "exp" then .expired
        else if tok == "dead" then .ok 2 else if tok == "missing" then .ok 99
        else .invalidSignature)
      [{ id := 1, username := "ann", email := "a@x.com", password := "h",
         role := "user", isActive := true },
       { id := 2, username := "bea", email := "b@x.com", password := "h",
         role := "user", isActive := false }] (some "Bearer bad") = .invalidToken) ∧
    (auth (fun tok => if tok == "good" then .ok 1 else if tok == "exp" then .expired
        else if tok == "dead" then .ok 2 else if tok == "missing" then .ok 99
        else .invalidSignature)
      [{ id := 1, username := "ann", email := "a@x.com", password := "h",
         role := "user", isActive := true },
       { id := 2, username := "bea", email := "b@x.com", password := "h",
         role := "user", isActive := false }] (some "Bearer exp") = .expiredToken) ∧
    (auth (fun tok => if tok == "good" then .ok 1 else if tok == "exp" then .expired
        else if tok == "dead" then .ok 2 else if tok == "missing" then .ok 99
        else .invalidSignature)
      [{ id := 1, username := "ann", email := "a@x.com", password := "h",
         role := "user", isActive := true },
       { id := 2, username := "bea", email := "b@x.com", password := "h",
         role := "user", isActive := false }] (some "Bearer missing") =
      .userNotFoundOrInactive) ∧
    (auth (fun tok => if tok == "good" then .ok 1 else if tok == "exp" then .expired
        else if tok == "dead" then .ok 2 else if tok == "missing" then .ok 99
        else .invalidSignature)
      [{ id := 1, username := "ann", email := "a@x.com", password := "h",
         role := "user", isActive := true },
       { id := 2, username := "bea", email := "b@x.com", password := "h",
         role := "user", isActive := false }] (some "Bearer dead") =
      .userNotFoundOrInactive) ∧
    (auth (fun tok => if tok == "good" then .ok 1 else if tok == "exp" then .expired
        else if tok == "dead" then .ok 2 else if tok == "missing" then .ok 99
        else .invalidSignature)
      [{ id := 1, username := "ann", email := "a@x.com", password := "h",
         role := "user", isActive := true },
       { id := 2, username := "bea", email := "b@x.com", password := "h",
         role := "user", isActive := false }] (some "Bearer good") =
      .authenticated { id := 1, username := "ann", email := "a@x.com",
                       role := "user", isActive := true }) :=
  ⟨(C8_auth_middleware_cases
      (fun tok => if tok == "good" then .ok 1 else if tok == "exp" then .expired
        else if tok == "dead" then .ok 2 else if tok == "missing" then .ok 99
        else .invalidSignature)
      [{ id := 1, username := "ann", email := "a@x.com", password := "h",
         role := "user", isActive := true },
       { id := 2, username := "bea", email := "b@x.com", password := "h",
         role := "user", isActive := false }]
      none "" 0
      { id := 0, username := "", email := "", password := "", role := "",
        isActive := false }).1,
   (C8_auth_middleware_cases _ _ (some "Bearer bad") "bad" 0
      { id := 0, username := "", email := "", password := "", role := "",
        isActive := false }).2.1
     rfl (by decide) rfl,
   (C8_auth_middleware_cases _ _ (some "Bearer exp") "exp" 0
      { id := 0, username := "", email := "", password := "", role := "",
        isActive := false }).2.2.1
     rfl (by decide) rfl,
   (C8_auth_middleware_cases _ _ (some "Bearer missing") "missing" 99
      { id := 0, username := "", email := "", password := "", role := "",
        isActive := false }).2.2.2.1
     rfl (by decide) rfl rfl,
   (C8_auth_middleware_cases _ _ (some "Bearer dead") "dead" 2
      { id := 2, username := "bea", email := "b@x.com", password := "h",
        role := "user", isActive := false }).2.2.2.2.1
     rfl (by decide) rfl rfl rfl,
   (C8_auth_middleware_cases _ _ (some "Bearer good") "good" 1
      { id := 1, username := "ann", email := "a@x.com", password := "h",
        role := "user", isActive := true }).2.2.2.2.2.1
     rfl (by decide) rfl rfl rfl⟩

/-! ### Claim C6 -/

/-- The JSON number 999.99, written in lowest terms so that the embedding
evaluates in the kernel. -/
def q999_99 : ℚ := Rat.mk' 99999 100 (by decide) (by decide)

lemma q999_99_eq : q999_99 = 99999 / 100 := by
  rw [q999_99, Rat.mk'_eq_divInt, Rat.divInt_eq_div]
  norm_num

/-- Claim C6 (the spec's worked example, mirrored by the repository's own
test "should create a new product successfully"): POST `/api/products` with
body `{name:"Laptop", price:999.99, quantity:10}` does not succeed — the
express-validator chain passes it, but `productSchema` additionally requires
`description`, `sku`, `category`, `cost` and `unit`, so the `save()` is
rejected and no product is stored.  The stats arithmetic the example
predicts (totalProducts = 1, totalValue = 999.99 × 10 = 9999.9) does hold of
a store holding one such product created with the required fields supplied. -/
theorem C6_spec_example_rejected_by_schema :
    productCreateValidation
      { name := some "Laptop", price := some q999_99, quantity := some 10 } = true ∧
    (999.99 : ℚ) = q999_99 ∧
    createProduct [] 0 1 0
      { name := some "Laptop", price := some q999_99, quantity := some 10 } =
      .badRequest ["Product description is required", "SKU is required",
                   "Category is required", "Cost is required", "Unit is required"] ∧
    getInventoryStats
      [(1, { name := "Laptop", description := "a laptop", sku := "LP1",
             category := "electronics", price := q999_99, cost := 0, quantity := 10,
             minQuantity := 0, unit := "pcs", isActive := true, createdBy := 0,
             createdAt := 0 })] 0 =
      { totalProducts := 1, totalValue := 9999.9, totalCost := 0,
        lowStockProducts := 0, outOfStockProducts := 0 } := by
  refine ⟨by decide, by rw [q999_99_eq]; norm_num, by decide, ?_⟩
  rw [show getInventoryStats
      [(1, { name := "Laptop", description := "a laptop", sku := "LP1",
             category := "electronics", price := q999_99, cost := 0, quantity := 10,
             minQuantity := 0, unit := "pcs", isActive := true, createdBy := 0,
             createdAt := 0 })] 0 =
    { totalProducts := 1, totalValue := q999_99 * 10 + 0, totalCost := 0 * 10 + 0,
      lowStockProducts := 0, outOfStockProducts := 0 } from rfl]
  rw [q999_99_eq]
  simp only [Stats.mk.injEq]
  norm_num

end Inventory
